import Mathlib

/-
  Shallow embedding of the peptide-suggestions full-stack app backend.

  Sources embedded:
  - src/backend/src/routes/suggestions.js : Joi validation schema,
    generateSuggestions, POST / handler pipeline.
  - src/backend/src/server.js (AuthMiddleware section) : generateToken,
    verifyToken, optionalAuth.
  - src/backend/src/services/suggestionsService.js (UserService section) :
    createUser, getUserByEmail, authenticateUser, saveSuggestion,
    getUserSuggestions.
  - src/unnamed/part_001 (auth router) : /register, /login, /verify.

  External libraries (jsonwebtoken, bcryptjs, sqlite) are modelled as
  abstract parameters or small data types that mirror their documented
  observable behaviour.
-/

namespace Peptide

/-- One suggestion record: `{name, description}`. -/
structure Suggestion where
  name : String
  description : String
deriving DecidableEq, Repr

/-- A persisted row of the `user_suggestions` table
    (`saveSuggestion` inserts `(userId, age, healthGoal, suggestions)`). -/
structure HistoryRow where
  userId : Nat
  age : Int
  healthGoal : String
  suggestions : List Suggestion
deriving DecidableEq, Repr

/-- The decoded JWT payload built by `AuthMiddleware.generateToken`:
    `{id, email, firstName, lastName}`. -/
structure Claims where
  id : Nat
  email : String
  firstName : String
  lastName : String
deriving DecidableEq, Repr

/-- `generateSuggestions(age, goal, isAuthenticated, userHistory)` from
    src/backend/src/routes/suggestions.js lines 35-126.  The JS builds an
    object with six goal keys and returns `suggestions[goal] || suggestions.energy`;
    each first description is a template string `prefix + age-bracket phrase`,
    each third description branches on `isAuthenticated`.  The `userHistory`
    parameter is accepted but never read in the body.

    The final-else branch here covers the case where `suggestions[goal]` is
    undefined and `||` picks `suggestions.energy`.  That is exact for every
    goal that is not a member name inherited from `Object.prototype`; for an
    inherited name such as `toString` the JS lookup instead yields the truthy
    inherited member, a case this `List Suggestion`-valued function cannot
    express — `generateSuggestionsJs` below models the full lookup.  The
    route only ever calls the generator with one of the six validated goals,
    where the two agree. -/
def generateSuggestions (age : Int) (goal : String) (isAuthenticated : Bool)
    (userHistory : List HistoryRow) : List Suggestion :=
  if goal = "energy" then
    [ ⟨"Peptide Alpha-E", "Supports natural energy production. " ++
        (if age < 30 then "Great for young adults building stamina."
         else if age < 50 then "Ideal for maintaining energy levels."
         else "Helps combat age-related energy decline.")⟩,
      ⟨"Mitochondrial Boost Complex",
        "Enhances cellular energy metabolism and reduces fatigue."⟩,
      ⟨"Vitality Peptide",
        if isAuthenticated then
          "Based on your profile, this may help with sustained energy throughout the day."
        else "May help with sustained energy throughout the day."⟩ ]
  else if goal = "sleep" then
    [ ⟨"Deep Rest Peptide", "Promotes restful sleep and recovery. " ++
        (if 40 < age then "Particularly beneficial for age-related sleep improvements."
         else "Supports healthy sleep cycles.")⟩,
      ⟨"Circadian Balance Formula",
        "Helps regulate natural sleep-wake cycles and improves sleep quality."⟩,
      ⟨"Recovery Sleep Support",
        if isAuthenticated then "Customized for your sleep optimization needs."
        else "Supports optimal sleep recovery."⟩ ]
  else if goal = "focus" then
    [ ⟨"Cognitive Enhancement Peptide", "Supports mental clarity and focus. " ++
        (if age < 35 then "Perfect for cognitive performance optimization."
         else "Helps maintain sharp mental function.")⟩,
      ⟨"Brain Boost Complex",
        "Enhances concentration and cognitive processing speed."⟩,
      ⟨"Mental Clarity Support",
        if isAuthenticated then "Tailored to your cognitive enhancement goals."
        else "Supports mental clarity and alertness."⟩ ]
  else if goal = "recovery" then
    [ ⟨"Rapid Recovery Peptide", "Accelerates muscle recovery and repair. " ++
        (if 35 < age then "Essential for maintaining recovery speed with age."
         else "Optimizes post-workout recovery.")⟩,
      ⟨"Tissue Repair Formula",
        "Supports faster healing and reduces recovery time."⟩,
      ⟨"Athletic Recovery Support",
        if isAuthenticated then "Designed for your specific recovery needs."
        else "Supports comprehensive recovery processes."⟩ ]
  else if goal = "weight_management" then
    [ ⟨"Metabolic Support Peptide", "Supports healthy metabolism. " ++
        (if 30 < age then "Helps counter age-related metabolic changes."
         else "Optimizes metabolic function.")⟩,
      ⟨"Fat Metabolism Enhancer",
        "Promotes efficient fat burning and metabolic health."⟩,
      ⟨"Body Composition Support",
        if isAuthenticated then "Personalized for your weight management journey."
        else "Supports healthy body composition."⟩ ]
  else if goal = "immune_support" then
    [ ⟨"Immune Defense Peptide", "Strengthens immune system function. " ++
        (if 50 < age then "Critical for age-related immune support."
         else "Supports robust immune response.")⟩,
      ⟨"Immunity Boost Complex",
        "Enhances natural immune defenses and resistance."⟩,
      ⟨"Wellness Protection Formula",
        if isAuthenticated then "Customized immune support based on your profile."
        else "Supports overall immune wellness."⟩ ]
  else
    [ ⟨"Peptide Alpha-E", "Supports natural energy production. " ++
        (if age < 30 then "Great for young adults building stamina."
         else if age < 50 then "Ideal for maintaining energy levels."
         else "Helps combat age-related energy decline.")⟩,
      ⟨"Mitochondrial Boost Complex",
        "Enhances cellular energy metabolism and reduces fatigue."⟩,
      ⟨"Vitality Peptide",
        if isAuthenticated then
          "Based on your profile, this may help with sustained energy throughout the day."
        else "May help with sustained energy throughout the day."⟩ ]

/-- The six values accepted by the Joi `healthGoal` validator. -/
def healthGoals : List String :=
  ["energy", "sleep", "focus", "recovery", "weight_management", "immune_support"]

/-- The property names every plain JavaScript object literal inherits from
    `Object.prototype`.  Looking one of these up on the six-key
    `suggestions` literal finds the inherited member — a built-in function,
    or `Object.prototype` itself for `__proto__` — all of which are truthy,
    so `||` returns the member rather than the energy fallback. -/
def objectPrototypeKeys : List String :=
  ["constructor", "hasOwnProperty", "isPrototypeOf", "propertyIsEnumerable",
   "toLocaleString", "toString", "valueOf", "__defineGetter__",
   "__defineSetter__", "__lookupGetter__", "__lookupSetter__", "__proto__"]

/-- The value of the JavaScript expression
    `suggestions[goal] || suggestions.energy`: either one of the suggestion
    lists held by the object literal (an own key, or the energy fallback
    when the lookup is undefined), or a truthy member inherited from
    `Object.prototype`, identified by its name. -/
inductive GoalLookup where
  | own (suggestions : List Suggestion)
  | inherited (memberName : String)
deriving DecidableEq, Repr

/-- Full JavaScript semantics of `suggestions[goal] || suggestions.energy`
    (routes/suggestions.js line 125), prototype chain included: one of the
    six own keys yields its list; a name found on `Object.prototype` yields
    the truthy inherited member, which `||` keeps; any other key gives
    undefined and `||` falls back to the energy list. -/
def generateSuggestionsJs (age : Int) (goal : String) (isAuthenticated : Bool)
    (userHistory : List HistoryRow) : GoalLookup :=
  if goal ∈ healthGoals then
    .own (generateSuggestions age goal isAuthenticated userHistory)
  else if goal ∈ objectPrototypeKeys then
    .inherited goal
  else
    .own (generateSuggestions age "energy" isAuthenticated userHistory)

/-- The non-integer age 64.5, as the reduced rational 129/2. -/
def age64half : Rat := ⟨129, 2, by norm_num, by norm_num⟩

/-! ### JWT model (jsonwebtoken library, used by AuthMiddleware in server.js) -/

/-- The failure modes of `jwt.verify` that the middleware distinguishes. -/
inductive JwtError where
  | expired
  | malformed
  | invalidSignature
deriving DecidableEq, Repr

/-- `err.name` as set by the jsonwebtoken library: an expired token raises
    `TokenExpiredError`; a structurally malformed token and a token whose
    signature does not validate both raise `JsonWebTokenError`
    (`TokenExpiredError` is the only subtype the library gives a distinct
    name among these three cases). -/
def JwtError.errName : JwtError → String
  | .expired => "TokenExpiredError"
  | .malformed => "JsonWebTokenError"
  | .invalidSignature => "JsonWebTokenError"

/-- The ambient `jwt.verify(token, JWT_SECRET, cb)` viewed as a pure
    function of the token string (the secret is fixed per process). -/
def JwtVerify : Type := String → Except JwtError Claims

/-- Character-list model of JavaScript `s.startsWith(p)` (header strings are
    ASCII, so code-unit positions and characters coincide). -/
def startsWithL : List Char → List Char → Bool
  | _, [] => true
  | [], _ :: _ => false
  | a :: s, b :: t => a == b && startsWithL s t

/-- JavaScript `s.startsWith(p)`. -/
def strStartsWith (s p : String) : Bool :=
  startsWithL s.data p.data

/-- JavaScript `s.substring(n)` for ASCII strings: drop the first `n`
    characters. -/
def strDrop (s : String) (n : Nat) : String :=
  ⟨s.data.drop n⟩

/-- The error payload `{message, code, field?}` used in JSON error responses. -/
structure ErrorBody where
  message : String
  code : String
  fieldPath : Option String := none
deriving DecidableEq, Repr

/-- Outcome of an Express auth middleware: either it writes a response and
    stops the chain, or it calls `next()` with `req.user` set. -/
inductive AuthStep where
  | respond (status : Nat) (error : ErrorBody)
  | proceed (user : Option Claims)
deriving DecidableEq, Repr

/-- `AuthMiddleware.verifyToken` (server.js lines 709-768): reject with 401
    `TOKEN_MISSING` when the Authorization header is absent or lacks the
    `Bearer ` prefix; otherwise strip the 7-character prefix, run
    `jwt.verify`, map `err.name` to a message/code pair, and on success set
    `req.user` to the decoded claims. -/
def verifyToken (jv : JwtVerify) (authHeader : Option String) : AuthStep :=
  match authHeader with
  | none => .respond 401 ⟨"Access token is required", "TOKEN_MISSING", none⟩
  | some h =>
    if strStartsWith h "Bearer " then
      match jv (strDrop h 7) with
      | .error e =>
        let errorMessage :=
          if e.errName = "TokenExpiredError" then "Token has expired"
          else if e.errName = "JsonWebTokenError" then "Malformed token"
          else "Invalid token"
        let errorCode :=
          if e.errName = "TokenExpiredError" then "TOKEN_EXPIRED"
          else if e.errName = "JsonWebTokenError" then "TOKEN_MALFORMED"
          else "TOKEN_INVALID"
        .respond 401 ⟨errorMessage, errorCode, none⟩
      | .ok decoded => .proceed (some decoded)
    else .respond 401 ⟨"Access token is required", "TOKEN_MISSING", none⟩

/-- `AuthMiddleware.optionalAuth` (server.js lines 771-791): continue with
    `req.user = null` when the header is absent, lacks the `Bearer ` prefix,
    or the token fails verification; continue with the decoded claims on
    success.  It never writes a response. -/
def optionalAuth (jv : JwtVerify) (authHeader : Option String) : AuthStep :=
  match authHeader with
  | none => .proceed none
  | some h =>
    if strStartsWith h "Bearer " then
      match jv (strDrop h 7) with
      | .error _ => .proceed none
      | .ok decoded => .proceed (some decoded)
    else .proceed none

/-! ### Joi validation for POST /suggestions (routes/suggestions.js 12-32, 129-153) -/

/-- A first validation violation: `error.details[0]` gives a message and the
    field path `error.details[0].path[0]`. -/
structure ValError where
  message : String
  path : String
deriving DecidableEq, Repr

/-- The raw JSON body of POST /suggestions as far as the schema looks at it:
    `age` as an arbitrary (possibly non-integer) number, `healthGoal` a string;
    either may be absent. -/
structure SuggestionsBody where
  age : Option Rat
  healthGoal : Option String

/-- The body after `suggestionsSchema.validate` succeeds. -/
structure ValidatedBody where
  age : Int
  healthGoal : String
deriving DecidableEq, Repr

/-- The `age` rules of `suggestionsSchema`:
    `Joi.number().integer().min(18).max(120).required()` with the custom
    messages from lines 18-24.  Joi aborts at the first violated rule. -/
def validateAge : Option Rat → Except ValError Int
  | none => .error ⟨"Age is required", "age"⟩
  | some q =>
    if q.den ≠ 1 then .error ⟨"Age must be a whole number", "age"⟩
    else if q.num < 18 then .error ⟨"Age must be at least 18", "age"⟩
    else if 120 < q.num then .error ⟨"Age must be 120 or less", "age"⟩
    else .ok q.num

/-- The `healthGoal` rules: `Joi.string().valid(...).required()` with the
    messages from lines 28-30. -/
def validateGoal : Option String → Except ValError String
  | none => .error ⟨"Health goal is required", "healthGoal"⟩
  | some g =>
    if g ∈ healthGoals then .ok g
    else .error ⟨"Health goal must be one of: energy, sleep, focus, recovery, weight_management, immune_support", "healthGoal"⟩

/-- `suggestionsSchema.validate(req.body)` with the Joi default abort-early
    behaviour, checking keys in schema order (`age`, then `healthGoal`). -/
def suggestionsValidate (b : SuggestionsBody) : Except ValError ValidatedBody :=
  match validateAge b.age with
  | .error e => .error e
  | .ok a =>
    match validateGoal b.healthGoal with
    | .error e => .error e
    | .ok g => .ok ⟨a, g⟩

/-! ### POST /suggestions handler (routes/suggestions.js 156-238) -/

/-- Response of the suggestions route: `res.json` defaults to 200, carrying
    the `suggestions` array and `meta.goalCategory` / `meta.authenticated`;
    every other exit is `res.status(s).json` with an error body. -/
inductive RouteResponse where
  | success (suggestions : List Suggestion) (goalCategory : String) (authenticated : Bool)
  | failure (status : Nat) (error : ErrorBody)
deriving DecidableEq, Repr

/-- The HTTP status of a `RouteResponse` (`res.json` without
    `res.status` responds 200). -/
def RouteResponse.status : RouteResponse → Nat
  | .success _ _ _ => 200
  | .failure s _ => s

/-- Resolution of the awaited side effects of one request, as decided by the
    environment (database and analytics subsystem): each may resolve or
    reject.  `historyFetch` is `userService.getUserSuggestions(req.user.id, 5)`,
    `analyticsLog` covers the `analyticsService.log*` calls, `saveOutcome` is
    `userService.saveSuggestion(...)`. -/
structure EffectOutcomes where
  historyFetch : Except String (List HistoryRow)
  analyticsLog : Except String Unit
  saveOutcome : Except String Unit

/-- The async handler body of `router.post("/")` after validation, lines
    160-238: fetch history when authenticated (failure caught, continue with
    `[]`), log analytics (failure caught), generate, save to history when
    authenticated (failure caught), respond 200.  State threaded through is
    the `user_suggestions` table. -/
def suggestionsHandler (user : Option Claims) (body : ValidatedBody)
    (eff : EffectOutcomes) (table : List HistoryRow) :
    RouteResponse × List HistoryRow :=
  let isAuthenticated := user.isSome
  let userHistory : List HistoryRow :=
    match user with
    | some _ =>
      match eff.historyFetch with
      | .ok h => h
      | .error _ => []
    | none => []
  let suggestions := generateSuggestions body.age body.healthGoal isAuthenticated userHistory
  let tableAfter : List HistoryRow :=
    match user with
    | some u =>
      match eff.saveOutcome with
      | .ok _ => table ++ [⟨u.id, body.age, body.healthGoal, suggestions⟩]
      | .error _ => table
    | none => table
  (.success suggestions body.healthGoal isAuthenticated, tableAfter)

/-- The full route `router.post("/", AuthMiddleware.optionalAuth,
    validateSuggestionsRequest, handler)`: optional auth first, then the
    validation middleware (400 `VALIDATION_ERROR` with
    `error.details[0].message` and `error.details[0].path[0]` on the first
    violation, short-circuiting before the handler), then the handler. -/
def postSuggestions (jv : JwtVerify) (authHeader : Option String)
    (rawBody : SuggestionsBody) (eff : EffectOutcomes)
    (table : List HistoryRow) : RouteResponse × List HistoryRow :=
  match optionalAuth jv authHeader with
  | .respond s e => (.failure s e, table)
  | .proceed user =>
    match suggestionsValidate rawBody with
    | .error e => (.failure 400 ⟨e.message, "VALIDATION_ERROR", some e.path⟩, table)
    | .ok body => suggestionsHandler user body eff table

/-! ### UserService (suggestionsService.js 300-473) -/

/-- A row of the `users` table: `(id, email, password, firstName, lastName)`
    where `password` stores the bcrypt hash (timestamps omitted — no claim
    reads them). -/
structure UserRow where
  id : Nat
  email : String
  password : String
  firstName : String
  lastName : String
deriving DecidableEq, Repr

/-- A user with the `password` field stripped, as returned by `createUser`
    and `authenticateUser` (`const \x7b password: _, ...userWithoutPassword \x7d`). -/
structure SanitizedUser where
  id : Nat
  email : String
  firstName : String
  lastName : String
deriving DecidableEq, Repr

/-- Dropping the stored hash from a user row. -/
def sanitizeUser (u : UserRow) : SanitizedUser :=
  ⟨u.id, u.email, u.firstName, u.lastName⟩

/-- `getUserByEmail`: `SELECT * FROM users WHERE email = ?` via `db.get`,
    which returns the first matching row or null. -/
def getUserByEmail (table : List UserRow) (email : String) : Option UserRow :=
  table.find? (fun u => u.email == email)

/-- Number of rows of the `users` table holding a given email. -/
def countEmail (table : List UserRow) (email : String) : Nat :=
  (table.filter (fun u => u.email == email)).length

/-- `UserService.createUser` (suggestionsService.js 321-360): reject with
    `"User with this email already exists"` when `getUserByEmail` finds a
    row; otherwise hash the password (bcrypt, abstracted as `hash`), insert
    the row, and resolve the sanitized user.  The fresh SQLite rowid is
    modelled as `table.length + 1`. -/
def createUser (hash : String → String) (table : List UserRow)
    (email password firstName lastName : String) :
    Except String (SanitizedUser × List UserRow) :=
  match getUserByEmail table email with
  | some _ => .error "User with this email already exists"
  | none =>
    let id := table.length + 1
    let row : UserRow := ⟨id, email, hash password, firstName, lastName⟩
    .ok (sanitizeUser row, table ++ [row])

/-- `UserService.authenticateUser` (suggestionsService.js 395-416): look up
    by email; throw `"Invalid email or password"` when absent; compare the
    password against the stored hash (bcrypt compare, abstracted as
    `compare plaintext storedHash`); throw the same message on mismatch;
    return the user without the password field on success. -/
def authenticateUser (compare : String → String → Bool) (table : List UserRow)
    (email password : String) : Except String SanitizedUser :=
  match getUserByEmail table email with
  | none => .error "Invalid email or password"
  | some user =>
    if compare password user.password then .ok (sanitizeUser user)
    else .error "Invalid email or password"

/-! ### Auth router: POST /auth/register (src/unnamed/part_001 82-163) -/

/-- Does `sub` occur contiguously inside `s`? -/
def containsL (sub : List Char) : List Char → Bool
  | [] => sub.isEmpty
  | c :: rest => startsWithL (c :: rest) sub || containsL sub rest

/-- JavaScript `s.includes(sub)`. -/
def strIncludes (s sub : String) : Bool :=
  containsL sub.data s.data

/-- The raw JSON body of POST /auth/register. -/
structure RegisterBody where
  email : Option String
  password : Option String
  firstName : Option String
  lastName : Option String

/-- The value produced by a successful `registerSchema.validate` (names are
    trimmed by Joi and stay absent when not supplied). -/
structure RegisterValue where
  email : String
  password : String
  firstName : Option String
  lastName : Option String
deriving DecidableEq, Repr

/-- The regex `(?=.*[a-z])(?=.*[A-Z])(?=.*\d)` of the password rule. -/
def passwordPatternOk (p : String) : Bool :=
  p.data.any Char.isLower && p.data.any Char.isUpper && p.data.any Char.isDigit

/-- One optional name field: `Joi.string().trim().min(1).max(50).optional()`
    with the given field messages. -/
def validateNameField (emptyMsg longMsg path : String) :
    Option String → Except ValError (Option String)
  | none => .ok none
  | some s =>
    let t := s.trim
    if t.length < 1 then .error ⟨emptyMsg, path⟩
    else if 50 < t.length then .error ⟨longMsg, path⟩
    else .ok (some t)

/-- `registerSchema.validate(req.body)` (part_001 lines 27-62) with the Joi
    abort-early behaviour in schema key order.  the Joi email format check is
    abstracted as the `emailValid` parameter. -/
def registerValidate (emailValid : String → Bool) (b : RegisterBody) :
    Except ValError RegisterValue :=
  match b.email with
  | none => .error ⟨"Email is required", "email"⟩
  | some e =>
    if !emailValid e then .error ⟨"Please provide a valid email address", "email"⟩
    else
      match b.password with
      | none => .error ⟨"Password is required", "password"⟩
      | some p =>
        if p.length < 8 then
          .error ⟨"Password must be at least 8 characters long", "password"⟩
        else if !passwordPatternOk p then
          .error ⟨"Password must contain at least one uppercase letter, one lowercase letter, and one number", "password"⟩
        else
          match validateNameField "First name cannot be empty"
              "First name cannot exceed 50 characters" "firstName" b.firstName with
          | .error err => .error err
          | .ok fn =>
            match validateNameField "Last name cannot be empty"
                "Last name cannot exceed 50 characters" "lastName" b.lastName with
            | .error err => .error err
            | .ok ln => .ok ⟨e, p, fn, ln⟩

/-- Response of POST /auth/register: 201 with the sanitized user and a
    token, or an error status with `{message, code}`. -/
inductive RegisterResponse where
  | created (user : SanitizedUser) (token : String)
  | failed (status : Nat) (error : ErrorBody)
deriving DecidableEq, Repr

/-- `router.post("/register")` (part_001 lines 82-163): validate, then
    `createUser(\x7bemail, password, firstName: firstName || "", ...\x7d)`;
    a rejection whose message includes `"already exists"` becomes 409
    `EMAIL_EXISTS`, any other rejection 500 `REGISTRATION_ERROR`; on success
    sign a token for the new user and respond 201.  `sign` abstracts
    `AuthMiddleware.generateToken` (jwt.sign). -/
def registerRoute (hash : String → String) (sign : SanitizedUser → String)
    (emailValid : String → Bool) (b : RegisterBody) (table : List UserRow) :
    RegisterResponse × List UserRow :=
  match registerValidate emailValid b with
  | .error e => (.failed 400 ⟨e.message, "VALIDATION_ERROR", none⟩, table)
  | .ok v =>
    match createUser hash table v.email v.password (v.firstName.getD "") (v.lastName.getD "") with
    | .ok (user, tableAfter) => (.created user (sign user), tableAfter)
    | .error msg =>
      if strIncludes msg "already exists" then
        (.failed 409 ⟨"An account with this email already exists", "EMAIL_EXISTS", none⟩, table)
      else
        (.failed 500 ⟨"Failed to register user. Please try again.", "REGISTRATION_ERROR", none⟩, table)

/-! ### Shared concrete environments for witnesses -/

/-- A concrete decoded claim set. -/
def demoClaims : Claims := ⟨1, "a@x.com", "Ada", "L"⟩

/-- A concrete verification environment distinguishing the four token
    failure modes: `"expired"`, `"mal"`, `"badsig"` fail as labelled, any
    other token decodes to `demoClaims`. -/
def jvModes : JwtVerify := fun t =>
  if t = "expired" then .error .expired
  else if t = "mal" then .error .malformed
  else if t = "badsig" then .error .invalidSignature
  else .ok demoClaims

/-! ### Helper lemmas -/

/-- `optionalAuth` always calls `next()`: there is no code path writing a
    response. -/
theorem optionalAuth_proceeds (jv : JwtVerify) (ah : Option String) :
    ∃ u, optionalAuth jv ah = .proceed u := by
  unfold optionalAuth
  cases ah with
  | none => exact ⟨none, rfl⟩
  | some h =>
    by_cases hb : strStartsWith h "Bearer " = true
    · simp only [hb, if_true]
      cases hj : jv (strDrop h 7) with
      | error e => exact ⟨none, rfl⟩
      | ok c => exact ⟨some c, rfl⟩
    · simp only [hb, if_false]
      exact ⟨none, rfl⟩

set_option maxHeartbeats 1000000 in
/-- Shape of every list the generator can return: three records, all with
    non-empty name and description, whatever the age bracket and
    authentication phrasing. -/
theorem gen_shape (age : Int) (goal : String) (auth : Bool) (h : List HistoryRow) :
    (generateSuggestions age goal auth h).length = 3 ∧
    ∀ s ∈ generateSuggestions age goal auth h, s.name ≠ "" ∧ s.description ≠ "" := by
  unfold generateSuggestions
  split_ifs <;> exact ⟨rfl, by decide⟩

/-! ### Claim theorems -/

/-- C10: the output of `generateSuggestions` is independent of its
    `userHistory` argument — for every age, goal and authentication state,
    any two history lists yield identical suggestions. -/
theorem history_independent (age : Int) (goal : String) (auth : Bool)
    (h1 h2 : List HistoryRow) :
    generateSuggestions age goal auth h1 = generateSuggestions age goal auth h2 := rfl

/-- C8 counterexample: `toString` is not one of the six goals, yet the
    lookup returns the truthy member inherited from `Object.prototype`
    rather than the energy list — the unconditional energy fallback fails. -/
theorem unknown_goal_proto_member :
    generateSuggestionsJs 25 "toString" false [] = .inherited "toString" ∧
    generateSuggestionsJs 25 "toString" false [] ≠
      .own (generateSuggestions 25 "energy" false []) := by
  refine ⟨by decide, by decide⟩

/-- C8 amended: for every string goal outside both the six enumerated goals
    and the `Object.prototype` member names, and every age and
    authentication state, the lookup falls back to the "energy" list rather
    than erroring. -/
theorem unknown_goal_energy (age : Int) (goal : String) (auth : Bool)
    (h : List HistoryRow) (hg : goal ∉ healthGoals)
    (hp : goal ∉ objectPrototypeKeys) :
    generateSuggestionsJs age goal auth h =
      .own (generateSuggestions age "energy" auth h) := by
  unfold generateSuggestionsJs
  rw [if_neg hg, if_neg hp]

/-- C8 amended witness: the unrecognized, non-prototype goal "hydration"
    produces the energy list. -/
theorem unknown_goal_energy_witness :
    generateSuggestionsJs 25 "hydration" false [] =
      .own (generateSuggestions 25 "energy" false []) :=
  unknown_goal_energy 25 "hydration" false [] (by decide) (by decide)

/-- C1: for every integer age in [18,120], every enumerated health goal and
    either authentication state, POST /suggestions responds 200 (`success`)
    with exactly 3 suggestion records, each with non-empty name and
    description. -/
theorem post_valid_three_suggestions (jv : JwtVerify) (ah : Option String)
    (rawBody : SuggestionsBody) (eff : EffectOutcomes) (table : List HistoryRow)
    (q : Rat) (g : String)
    (hq : rawBody.age = some q) (hden : q.den = 1)
    (h18 : 18 ≤ q.num) (h120 : q.num ≤ 120)
    (hg : rawBody.healthGoal = some g) (hmem : g ∈ healthGoals) :
    ∃ sug auth tableAfter,
      postSuggestions jv ah rawBody eff table = (.success sug g auth, tableAfter) ∧
      RouteResponse.status (.success sug g auth) = 200 ∧
      sug.length = 3 ∧ ∀ s ∈ sug, s.name ≠ "" ∧ s.description ≠ "" := by
  obtain ⟨u, hu⟩ := optionalAuth_proceeds jv ah
  have hval : suggestionsValidate rawBody = .ok ⟨q.num, g⟩ := by
    unfold suggestionsValidate
    rw [hq, hg]
    simp only [validateAge, validateGoal, hden, not_lt.mpr h18, not_lt.mpr h120, hmem,
      ne_eq, not_true_eq_false, if_false, if_true, not_false_eq_true]
  unfold postSuggestions
  rw [hu, hval]
  refine ⟨_, u.isSome, _, rfl, rfl, (gen_shape q.num g u.isSome _).1,
    (gen_shape q.num g u.isSome _).2⟩

/-- C1 witness: age 25, goal "energy", anonymous environment. -/
theorem post_valid_three_suggestions_witness :
    ∃ sug auth tableAfter,
      postSuggestions jvModes none ⟨some 25, some "energy"⟩ ⟨.ok [], .ok (), .ok ()⟩ []
        = (.success sug "energy" auth, tableAfter) ∧
      RouteResponse.status (.success sug "energy" auth) = 200 ∧
      sug.length = 3 ∧ ∀ s ∈ sug, s.name ≠ "" ∧ s.description ≠ "" :=
  post_valid_three_suggestions jvModes none ⟨some 25, some "energy"⟩ ⟨.ok [], .ok (), .ok ()⟩ []
    25 "energy" rfl (by decide) (by decide) (by decide) rfl (by decide)

/-- C3: a valid request without a bearer token (header absent or lacking
    the `Bearer ` prefix) responds 200 with `meta.authenticated = false`,
    and the `user_suggestions` table is returned unchanged — no history row
    is inserted for any user. -/
theorem anonymous_no_history (jv : JwtVerify) (ah : Option String)
    (rawBody : SuggestionsBody) (eff : EffectOutcomes) (table : List HistoryRow)
    (body : ValidatedBody)
    (hanon : ∀ h, ah = some h → strStartsWith h "Bearer " = false)
    (hval : suggestionsValidate rawBody = .ok body) :
    postSuggestions jv ah rawBody eff table =
      (.success (generateSuggestions body.age body.healthGoal false []) body.healthGoal false,
        table) := by
  have hu : optionalAuth jv ah = .proceed none := by
    cases ah with
    | none => rfl
    | some h =>
      unfold optionalAuth
      simp only [hanon h rfl, Bool.false_eq_true, if_false]
  unfold postSuggestions
  rw [hu, hval]
  rfl

/-- C3 witness: the concrete spec scenario — anonymous
    `\x7bage: 40, healthGoal: "sleep"\x7d` with no Authorization header. -/
theorem anonymous_no_history_witness :
    postSuggestions jvModes none ⟨some 40, some "sleep"⟩ ⟨.ok [], .ok (), .ok ()⟩
        [⟨7, 30, "focus", []⟩] =
      (.success (generateSuggestions 40 "sleep" false []) "sleep" false,
        [⟨7, 30, "focus", []⟩]) :=
  anonymous_no_history jvModes none ⟨some 40, some "sleep"⟩ ⟨.ok [], .ok (), .ok ()⟩
    [⟨7, 30, "focus", []⟩] ⟨40, "sleep"⟩ (fun h hh => nomatch hh) rfl

/-- C4: for a valid request, the response does not depend on the outcome of
    analytics logging or of saving to history: the failed-effects response
    equals the succeeded-effects response, and it is still a 200 success
    carrying the goal category. -/
theorem effects_never_surface (jv : JwtVerify) (ah : Option String)
    (rawBody : SuggestionsBody) (eff : EffectOutcomes) (table : List HistoryRow)
    (body : ValidatedBody)
    (hval : suggestionsValidate rawBody = .ok body) :
    (postSuggestions jv ah rawBody eff table).1 =
      (postSuggestions jv ah rawBody ⟨eff.historyFetch, .ok (), .ok ()⟩ table).1 ∧
    (postSuggestions jv ah rawBody eff table).1.status = 200 ∧
    ∃ sug auth, (postSuggestions jv ah rawBody eff table).1 = .success sug body.healthGoal auth := by
  obtain ⟨u, hu⟩ := optionalAuth_proceeds jv ah
  unfold postSuggestions
  rw [hu, hval]
  exact ⟨rfl, rfl, _, u.isSome, rfl⟩

/-- C4 witness: authenticated request whose analytics logging and history
    save both reject — same response as the all-success run, still 200. -/
theorem effects_never_surface_witness :
    (postSuggestions jvModes (some "Bearer tok") ⟨some 30, some "focus"⟩
        ⟨.ok [], .error "analytics down", .error "db down"⟩ []).1 =
      (postSuggestions jvModes (some "Bearer tok") ⟨some 30, some "focus"⟩
        ⟨.ok [], .ok (), .ok ()⟩ []).1 ∧
    (postSuggestions jvModes (some "Bearer tok") ⟨some 30, some "focus"⟩
        ⟨.ok [], .error "analytics down", .error "db down"⟩ []).1.status = 200 ∧
    ∃ sug auth,
      (postSuggestions jvModes (some "Bearer tok") ⟨some 30, some "focus"⟩
        ⟨.ok [], .error "analytics down", .error "db down"⟩ []).1 = .success sug "focus" auth :=
  effects_never_surface jvModes (some "Bearer tok") ⟨some 30, some "focus"⟩
    ⟨.ok [], .error "analytics down", .error "db down"⟩ [] ⟨30, "focus"⟩ rfl

/-- C5: `optionalAuth` never produces an error response — it always
    proceeds; with no header, a non-Bearer header, or a failing token it
    proceeds with `req.user = null`, and with a verifying token it proceeds
    with the decoded claims. -/
theorem optional_auth_never_rejects (jv : JwtVerify) (ah : Option String) :
    (∃ u, optionalAuth jv ah = .proceed u) ∧
    ((∀ h, ah = some h → strStartsWith h "Bearer " = false) →
      optionalAuth jv ah = .proceed none) ∧
    (∀ h e, ah = some h → strStartsWith h "Bearer " = true → jv (strDrop h 7) = .error e →
      optionalAuth jv ah = .proceed none) ∧
    (∀ h c, ah = some h → strStartsWith h "Bearer " = true → jv (strDrop h 7) = .ok c →
      optionalAuth jv ah = .proceed (some c)) := by
  refine ⟨optionalAuth_proceeds jv ah, ?_, ?_, ?_⟩
  · intro hanon
    cases ah with
    | none => rfl
    | some h =>
      unfold optionalAuth
      simp only [hanon h rfl, Bool.false_eq_true, if_false]
  · intro h e hh hb hj
    subst hh
    unfold optionalAuth
    simp only [hb, if_true, hj]
  · intro h c hh hb hj
    subst hh
    unfold optionalAuth
    simp only [hb, if_true, hj]

/-- C5 witness: missing header, expired bearer and valid bearer all proceed,
    with the user as specified. -/
theorem optional_auth_never_rejects_witness :
    optionalAuth jvModes none = .proceed none ∧
    optionalAuth jvModes (some "Basic abc") = .proceed none ∧
    optionalAuth jvModes (some "Bearer expired") = .proceed none ∧
    optionalAuth jvModes (some "Bearer tok") = .proceed (some demoClaims) :=
  ⟨(optional_auth_never_rejects jvModes none).2.1 (fun h hh => nomatch hh),
   (optional_auth_never_rejects jvModes (some "Basic abc")).2.1
     (fun h hh => by cases hh; decide),
   (optional_auth_never_rejects jvModes (some "Bearer expired")).2.2.1
     "Bearer expired" .expired rfl (by decide) rfl,
   (optional_auth_never_rejects jvModes (some "Bearer tok")).2.2.2
     "Bearer tok" demoClaims rfl (by decide) rfl⟩

/-- C9: POST /suggestions with age 17 or 121 responds 400 with field "age"
    and a message naming the violated bound; age 64.5 (= 129/2) responds
    400 as non-integer; in all three cases the history table is returned
    untouched — the handler body is never reached. -/
theorem age_validation_fails_closed (jv : JwtVerify) (ah : Option String)
    (g : Option String) (eff : EffectOutcomes) (table : List HistoryRow) :
    postSuggestions jv ah ⟨some 17, g⟩ eff table =
      (.failure 400 ⟨"Age must be at least 18", "VALIDATION_ERROR", some "age"⟩, table) ∧
    postSuggestions jv ah ⟨some 121, g⟩ eff table =
      (.failure 400 ⟨"Age must be 120 or less", "VALIDATION_ERROR", some "age"⟩, table) ∧
    postSuggestions jv ah ⟨some age64half, g⟩ eff table =
      (.failure 400 ⟨"Age must be a whole number", "VALIDATION_ERROR", some "age"⟩, table) := by
  obtain ⟨u, hu⟩ := optionalAuth_proceeds jv ah
  refine ⟨?_, ?_, ?_⟩ <;> (unfold postSuggestions; rw [hu]) <;> rfl

/-- C2 counterexample: under an environment where token `"mal"` is
    malformed and token `"badsig"` has an invalid signature, `verifyToken`
    answers 401 with the SAME code `TOKEN_MALFORMED` for both — the four
    failure modes do not yield four pairwise-distinct codes. -/
theorem verify_codes_collide :
    verifyToken jvModes (some "Bearer mal") =
      .respond 401 ⟨"Malformed token", "TOKEN_MALFORMED", none⟩ ∧
    verifyToken jvModes (some "Bearer badsig") =
      .respond 401 ⟨"Malformed token", "TOKEN_MALFORMED", none⟩ := ⟨rfl, rfl⟩

/-- C2 amended: `verifyToken` rejects with 401 in each of the four failure
    modes; missing yields `TOKEN_MISSING`, expired yields `TOKEN_EXPIRED`,
    and malformed and invalid-signature both yield `TOKEN_MALFORMED` (the
    jsonwebtoken library raises `JsonWebTokenError` for both), so exactly
    three distinct codes arise. -/
theorem verify_modes_reject (jv : JwtVerify) (ah : Option String) :
    (ah = none →
      verifyToken jv ah = .respond 401 ⟨"Access token is required", "TOKEN_MISSING", none⟩) ∧
    (∀ h, ah = some h → strStartsWith h "Bearer " = false →
      verifyToken jv ah = .respond 401 ⟨"Access token is required", "TOKEN_MISSING", none⟩) ∧
    (∀ h, ah = some h → strStartsWith h "Bearer " = true →
      jv (strDrop h 7) = .error .expired →
      verifyToken jv ah = .respond 401 ⟨"Token has expired", "TOKEN_EXPIRED", none⟩) ∧
    (∀ h, ah = some h → strStartsWith h "Bearer " = true →
      jv (strDrop h 7) = .error .malformed →
      verifyToken jv ah = .respond 401 ⟨"Malformed token", "TOKEN_MALFORMED", none⟩) ∧
    (∀ h, ah = some h → strStartsWith h "Bearer " = true →
      jv (strDrop h 7) = .error .invalidSignature →
      verifyToken jv ah = .respond 401 ⟨"Malformed token", "TOKEN_MALFORMED", none⟩) := by
  refine ⟨?_, ?_, ?_, ?_, ?_⟩
  · intro hh; subst hh; rfl
  · intro h hh hb
    subst hh
    unfold verifyToken
    simp only [hb, Bool.false_eq_true, if_false]
  all_goals intro h hh hb hj
  all_goals subst hh
  all_goals unfold verifyToken
  all_goals simp only [hb, if_true, hj]
  all_goals rfl

/-- C2 amended witness: one concrete environment exercising all four
    failure modes with the stated codes. -/
theorem verify_modes_reject_witness :
    verifyToken jvModes none =
      .respond 401 ⟨"Access token is required", "TOKEN_MISSING", none⟩ ∧
    verifyToken jvModes (some "Basic abc") =
      .respond 401 ⟨"Access token is required", "TOKEN_MISSING", none⟩ ∧
    verifyToken jvModes (some "Bearer expired") =
      .respond 401 ⟨"Token has expired", "TOKEN_EXPIRED", none⟩ ∧
    verifyToken jvModes (some "Bearer mal") =
      .respond 401 ⟨"Malformed token", "TOKEN_MALFORMED", none⟩ ∧
    verifyToken jvModes (some "Bearer badsig") =
      .respond 401 ⟨"Malformed token", "TOKEN_MALFORMED", none⟩ :=
  ⟨(verify_modes_reject jvModes none).1 rfl,
   (verify_modes_reject jvModes (some "Basic abc")).2.1 "Basic abc" rfl (by decide),
   (verify_modes_reject jvModes (some "Bearer expired")).2.2.1 "Bearer expired" rfl
     (by decide) rfl,
   (verify_modes_reject jvModes (some "Bearer mal")).2.2.2.1 "Bearer mal" rfl
     (by decide) rfl,
   (verify_modes_reject jvModes (some "Bearer badsig")).2.2.2.2 "Bearer badsig" rfl
     (by decide) rfl⟩

/-- C7: `authenticateUser` fails with the one literal message
    `"Invalid email or password"` both when the email is unknown and when
    the hash comparison fails — the two causes produce identical errors —
    and on success returns the user with the password hash stripped. -/
theorem auth_failure_uniform (compare : String → String → Bool)
    (table : List UserRow) (email password : String) :
    (getUserByEmail table email = none →
      authenticateUser compare table email password = .error "Invalid email or password") ∧
    (∀ u, getUserByEmail table email = some u → compare password u.password = false →
      authenticateUser compare table email password = .error "Invalid email or password") ∧
    (∀ u, getUserByEmail table email = some u → compare password u.password = true →
      authenticateUser compare table email password = .ok (sanitizeUser u)) := by
  refine ⟨?_, ?_, ?_⟩
  · intro hn
    unfold authenticateUser
    rw [hn]
  · intro u hu hc
    unfold authenticateUser
    rw [hu]
    simp only [hc, Bool.false_eq_true, if_false]
  · intro u hu hc
    unfold authenticateUser
    rw [hu]
    simp only [hc, if_true]

/-- C7 witness: one stored user, hashed by prepending "hash:"; unknown
    email and wrong password yield the same error value, the right password
    yields the sanitized user. -/
theorem auth_failure_uniform_witness :
    authenticateUser (fun p s => s == "hash:" ++ p)
        [⟨1, "a@x.com", "hash:pw", "Ada", "L"⟩] "b@x.com" "pw" =
      .error "Invalid email or password" ∧
    authenticateUser (fun p s => s == "hash:" ++ p)
        [⟨1, "a@x.com", "hash:pw", "Ada", "L"⟩] "a@x.com" "wrong" =
      .error "Invalid email or password" ∧
    authenticateUser (fun p s => s == "hash:" ++ p)
        [⟨1, "a@x.com", "hash:pw", "Ada", "L"⟩] "a@x.com" "pw" =
      .ok ⟨1, "a@x.com", "Ada", "L"⟩ :=
  ⟨(auth_failure_uniform (fun p s => s == "hash:" ++ p)
      [⟨1, "a@x.com", "hash:pw", "Ada", "L"⟩] "b@x.com" "pw").1 rfl,
   (auth_failure_uniform (fun p s => s == "hash:" ++ p)
      [⟨1, "a@x.com", "hash:pw", "Ada", "L"⟩] "a@x.com" "wrong").2.1
      ⟨1, "a@x.com", "hash:pw", "Ada", "L"⟩ rfl (by decide),
   (auth_failure_uniform (fun p s => s == "hash:" ++ p)
      [⟨1, "a@x.com", "hash:pw", "Ada", "L"⟩] "a@x.com" "pw").2.2
      ⟨1, "a@x.com", "hash:pw", "Ada", "L"⟩ rfl (by decide)⟩

/-- `find?` skips a block that contains no match. -/
theorem find?_append_of_none {α : Type} {p : α → Bool} {l1 : List α} (l2 : List α)
    (h : l1.find? p = none) : (l1 ++ l2).find? p = l2.find? p := by
  induction l1 with
  | nil => rfl
  | cons a t ih =>
    rw [List.cons_append]
    by_cases hpa : p a = true
    · rw [List.find?_cons_of_pos _ hpa] at h
      cases h
    · rw [List.find?_cons_of_neg _ (by simpa using hpa)] at h
      rw [List.find?_cons_of_neg _ (by simpa using hpa)]
      exact ih h

/-- A table with no row for an email makes `getUserByEmail` return null. -/
theorem getUserByEmail_of_countEmail_zero {table : List UserRow} {email : String}
    (h : countEmail table email = 0) : getUserByEmail table email = none := by
  unfold countEmail at h
  rw [List.length_eq_zero] at h
  unfold getUserByEmail
  rw [List.find?_eq_none]
  intro x hx
  simpa using List.filter_eq_nil.mp h x hx

/-- Appending one matching row raises the email count by exactly one. -/
theorem countEmail_append_row (table : List UserRow) (row : UserRow) (email : String)
    (hmatch : (row.email == email) = true) :
    countEmail (table ++ [row]) email = countEmail table email + 1 := by
  unfold countEmail
  rw [List.filter_append, List.length_append]
  simp [List.filter, hmatch]

/-- C6: registering an email into a table with no row for it succeeds and
    leaves exactly one row with that email; registering the same email again
    (any valid password) responds 409 `EMAIL_EXISTS` and returns the table
    unchanged — the second attempt inserts no row. -/
theorem duplicate_email_conflict (hash : String → String) (sign : SanitizedUser → String)
    (emailValid : String → Bool) (b1 b2 : RegisterBody) (table : List UserRow)
    (email : String) (v1 v2 : RegisterValue)
    (hv1 : registerValidate emailValid b1 = .ok v1) (h1e : v1.email = email)
    (hv2 : registerValidate emailValid b2 = .ok v2) (h2e : v2.email = email)
    (hzero : countEmail table email = 0) :
    ∃ user token table1,
      registerRoute hash sign emailValid b1 table = (.created user token, table1) ∧
      countEmail table1 email = 1 ∧
      registerRoute hash sign emailValid b2 table1 =
        (.failed 409 ⟨"An account with this email already exists", "EMAIL_EXISTS", none⟩,
          table1) := by
  have hnoneE : getUserByEmail table email = none :=
    getUserByEmail_of_countEmail_zero hzero
  have hnone1 : getUserByEmail table v1.email = none := by rw [h1e]; exact hnoneE
  have hfirst : registerRoute hash sign emailValid b1 table =
      (.created (sanitizeUser ⟨table.length + 1, v1.email, hash v1.password,
          v1.firstName.getD "", v1.lastName.getD ""⟩)
        (sign (sanitizeUser ⟨table.length + 1, v1.email, hash v1.password,
          v1.firstName.getD "", v1.lastName.getD ""⟩)),
        table ++ [⟨table.length + 1, v1.email, hash v1.password,
          v1.firstName.getD "", v1.lastName.getD ""⟩]) := by
    unfold registerRoute
    simp only [hv1]
    unfold createUser
    simp only [hnone1]
  have hfind : getUserByEmail
      (table ++ [⟨table.length + 1, v1.email, hash v1.password,
        v1.firstName.getD "", v1.lastName.getD ""⟩]) v2.email =
      some ⟨table.length + 1, v1.email, hash v1.password,
        v1.firstName.getD "", v1.lastName.getD ""⟩ := by
    rw [h2e]
    unfold getUserByEmail
    rw [find?_append_of_none _ (by unfold getUserByEmail at hnoneE; exact hnoneE)]
    exact List.find?_cons_of_pos _ (by simp [h1e])
  refine ⟨_, _, _, hfirst, ?_, ?_⟩
  · rw [countEmail_append_row table _ email (by simp [h1e]), hzero]
  · unfold registerRoute
    simp only [hv2]
    unfold createUser
    simp only [hfind]
    rfl

/-- C6 witness: the concrete spec account `a@x.com` / `Abcdef12`
    registered twice into an empty table. -/
theorem duplicate_email_conflict_witness :
    ∃ user token table1,
      registerRoute (fun p => "hash:" ++ p) (fun _ => "tokenT") (fun _ => true)
        ⟨some "a@x.com", some "Abcdef12", none, none⟩ [] = (.created user token, table1) ∧
      countEmail table1 "a@x.com" = 1 ∧
      registerRoute (fun p => "hash:" ++ p) (fun _ => "tokenT") (fun _ => true)
        ⟨some "a@x.com", some "Abcdef12", none, none⟩ table1 =
        (.failed 409 ⟨"An account with this email already exists", "EMAIL_EXISTS", none⟩,
          table1) :=
  duplicate_email_conflict (fun p => "hash:" ++ p) (fun _ => "tokenT") (fun _ => true)
    ⟨some "a@x.com", some "Abcdef12", none, none⟩ ⟨some "a@x.com", some "Abcdef12", none, none⟩
    [] "a@x.com" ⟨"a@x.com", "Abcdef12", none, none⟩ ⟨"a@x.com", "Abcdef12", none, none⟩
    rfl rfl rfl rfl rfl

end Peptide
